import Mathlib

/-!
Verification model of `importar-dados.py` (ImportadorCNPJMultiPasta).

The importer consolidates periodic CNPJ snapshot files into a SQLite store.
We shallowly embed the parts the specification talks about:

* SQL values are `Option String` (`none` = SQL NULL).  The pipeline replaces
  empty strings by `None` before the upsert (`chunk.replace({'': None})`),
  and an `INSERT` omits `None` columns, which stores SQL NULL, so `none`
  faithfully represents both.
* The three per-entity branches of `_upsert_chunk_inteligente` become
  `upsertRowEmpresa` / `upsertRowEstabelecimento` / `upsertRowSocio`,
  acting on a store modelled as a list of records.  SQL `UPDATE` updates
  every row matched by the WHERE clause and `cursor.rowcount` counts the
  matched rows (SQLite counts a row even when the new values equal the old).
* SQL equality (`col = ?`) is three-valued: a NULL on either side never
  matches.  `sqlEq` captures this; it is the crux of the partner-key claim.
* `pd.to_numeric(..., errors='coerce').fillna(0)` on the comma-decimal
  capital column becomes `capitalToNumeric` over `Rat` (a plain decimal
  parser; scientific notation and padding are irrelevant to the claims).
* `_remover_duplicatas` (pandas `drop_duplicates`, default `keep='first'`,
  NULLs compare equal) becomes `dedupBy` with plain `Option` equality.
* Folder discovery / period ordering (`encontrar_todas_pastas`, the
  `sorted(..., key=(name[:4], name[5:7]))` in `importar_dados_principais`)
  and the reference-table loader (`importar_tabelas_referencia`, which takes
  `estrutura_completa[tabela][0]` and writes with `if_exists='replace'`)
  are modelled over explicit directory-entry lists, with string comparison
  spelled out on character lists (codepoint order, as Python and SQLite
  compare these ASCII tokens).
-/

/-- SQL `NULLIF(v, '')`: turn the empty string into NULL. -/
def sqlNullif (v : Option String) : Option String :=
  if v = some "" then none else v

/-- SQL `COALESCE(a, b)` for two arguments. -/
def sqlCoalesce (a b : Option String) : Option String :=
  match a with
  | none => b
  | some s => some s

/-- The merge expression used by every string column of the three UPDATE
statements: `COALESCE(NULLIF(?, ''), stored)`. -/
def mergeField (incoming stored : Option String) : Option String :=
  sqlCoalesce (sqlNullif incoming) stored

/-- SQL equality `col = ?` under three-valued logic: NULL on either side
never matches. -/
def sqlEq (a b : Option String) : Bool :=
  match a, b with
  | some x, some y => x = y
  | _, _ => false

/-- Blank in the sense the merge treats it: SQL NULL or the empty string. -/
def blankB (v : Option String) : Bool :=
  match v with
  | none => true
  | some s => s = ""

/-- Lexicographic (codepoint) strict order on character lists; this is how
SQLite compares TEXT (memcmp) and how Python compares these ASCII strings. -/
def lexLt : List Char → List Char → Bool
  | [], [] => false
  | [], _ :: _ => true
  | _ :: _, [] => false
  | a :: as, b :: bs =>
    if a.toNat < b.toNat then true
    else if a.toNat = b.toNat then lexLt as bs
    else false

/-- Lexicographic (codepoint) non-strict order on character lists. -/
def lexLe : List Char → List Char → Bool
  | [], _ => true
  | _ :: _, [] => false
  | a :: as, b :: bs =>
    if a.toNat < b.toNat then true
    else if a.toNat = b.toNat then lexLe as bs
    else false

/-- SQL `? > data_atualizacao` with a TEXT parameter `a` against the stored
`Option` value: comparison with NULL is never true. -/
def sqlGtStored (a : String) (b : Option String) : Bool :=
  match b with
  | none => false
  | some s => lexLt s.toList a.toList

/-- `str.replace(',', '.')` for the one-character pattern used on
`capital_social`, on the character list. -/
def commaToDot (s : String) : List Char :=
  s.toList.map (fun c => if c = ',' then '.' else c)

/-- Digit-list to number, exactly the value `int` semantics give a digit
string. -/
def digitsToNat (cs : List Char) : Nat :=
  cs.foldl (fun n c => n * 10 + (c.toNat - 48)) 0

/-- Parse an unsigned decimal literal `digits[.digits]` (at least one digit
overall) as a rational; `none` when malformed.  This is the fragment of
`pd.to_numeric`'s grammar the capital column exercises. -/
def parseDecCore (cs : List Char) : Option Rat :=
  let ip := cs.takeWhile Char.isDigit
  let rest := cs.dropWhile Char.isDigit
  match rest with
  | [] => if ip.isEmpty then none else some (digitsToNat ip)
  | '.' :: fp =>
    if fp.all Char.isDigit && !(ip.isEmpty && fp.isEmpty) then
      some ((digitsToNat ip : Rat) + (digitsToNat fp : Rat) / (10 ^ fp.length))
    else none
  | _ => none

/-- Signed decimal parser, `none` on malformed input. -/
def parseDec (cs : List Char) : Option Rat :=
  match cs with
  | '-' :: rest => (parseDecCore rest).map (fun q => -q)
  | '+' :: rest => parseDecCore rest
  | _ => parseDecCore cs

/-- The capital conversion of `_importar_arquivo_principal`:
`astype(str)` (so a missing value becomes the unparseable text `"None"`),
`str.replace(',', '.')`, then `pd.to_numeric(errors='coerce').fillna(0)` —
any parse failure, including blank, coerces to `0`. -/
def capitalToNumeric (v : Option String) : Rat :=
  match v with
  | none => 0
  | some s => (parseDec (commaToDot s)).getD 0

/-- Python truthiness test guarding the Company insert:
`row['razao_social'] and row['razao_social'].strip()` — the value must be a
non-empty string containing at least one non-whitespace character. -/
def razaoSocialOk (v : Option String) : Bool :=
  match v with
  | none => false
  | some s => !s.toList.isEmpty && s.toList.any (fun c => !c.isWhitespace)

/-- The `f"{pasta_nome[:4]}-{pasta_nome[5:7]}-01"` stamp added to each chunk. -/
def stampOfPasta (p : String) : String :=
  String.mk (p.toList.take 4 ++ ['-'] ++ ((p.toList.drop 5).take 2) ++ ['-', '0', '1'])

/-! ## Company (`empresa`) -/

/-- A raw Company CSV row after the `fillna('')`/`replace({'': None})`
cleaning: every column is a string or NULL. -/
structure EmpresaRaw where
  cnpj_basico : Option String
  razao_social : Option String
  natureza_juridica : Option String
  qualificacao_responsavel : Option String
  capital_social : Option String
  porte_empresa : Option String
  ente_federativo_responsavel : Option String
deriving DecidableEq

/-- A processed Company row as handed to the upsert: capital already numeric,
period stamp attached. -/
structure EmpresaRow where
  cnpj_basico : Option String
  razao_social : Option String
  natureza_juridica : Option String
  qualificacao_responsavel : Option String
  capital_social : Rat
  porte_empresa : Option String
  ente_federativo_responsavel : Option String
  data_atualizacao : String
deriving DecidableEq

/-- A stored `empresa` record.  `data_atualizacao` is `Option` because the
INSERT column list (`estrutura_colunas['empresa']`) does not contain it, so a
freshly inserted record holds NULL there. -/
structure Empresa where
  cnpj_basico : Option String
  razao_social : Option String
  natureza_juridica : Option String
  qualificacao_responsavel : Option String
  capital_social : Rat
  porte_empresa : Option String
  ente_federativo_responsavel : Option String
  data_atualizacao : Option String
deriving DecidableEq

/-- Row preparation done by `_importar_arquivo_principal` for `empresa`. -/
def processEmpresaRow (raw : EmpresaRaw) (pasta : String) : EmpresaRow :=
  { cnpj_basico := raw.cnpj_basico
    razao_social := raw.razao_social
    natureza_juridica := raw.natureza_juridica
    qualificacao_responsavel := raw.qualificacao_responsavel
    capital_social := capitalToNumeric raw.capital_social
    porte_empresa := raw.porte_empresa
    ente_federativo_responsavel := raw.ente_federativo_responsavel
    data_atualizacao := stampOfPasta pasta }

/-- The WHERE gate of the Company UPDATE (besides the key match):
`razao_social IS NULL OR razao_social = '' OR natureza_juridica IS NULL OR
natureza_juridica = '' OR ? > data_atualizacao`. -/
def empresaGate (st : Empresa) (stamp : String) : Bool :=
  blankB st.razao_social || blankB st.natureza_juridica ||
    sqlGtStored stamp st.data_atualizacao

/-- The SET clause of the Company UPDATE.  The capital column is
`CASE WHEN ? IS NOT NULL AND ? != 0 THEN ? ELSE capital_social END`; through
the pipeline the bound capital is always a number, so only the `!= 0` test
bites. -/
def empresaApplyUpdate (row : EmpresaRow) (st : Empresa) : Empresa :=
  { st with
    razao_social := mergeField row.razao_social st.razao_social
    natureza_juridica := mergeField row.natureza_juridica st.natureza_juridica
    qualificacao_responsavel :=
      mergeField row.qualificacao_responsavel st.qualificacao_responsavel
    capital_social :=
      if row.capital_social ≠ 0 then row.capital_social else st.capital_social
    porte_empresa := mergeField row.porte_empresa st.porte_empresa
    ente_federativo_responsavel :=
      mergeField row.ente_federativo_responsavel st.ente_federativo_responsavel
    data_atualizacao := some row.data_atualizacao }

/-- INSERT of a new Company: `None` columns are omitted (stored NULL, which
the `Option` fields already express) and `data_atualizacao` is not in the
insert column list, so it is stored NULL. -/
def empresaInsert (row : EmpresaRow) : Empresa :=
  { cnpj_basico := row.cnpj_basico
    razao_social := row.razao_social
    natureza_juridica := row.natureza_juridica
    qualificacao_responsavel := row.qualificacao_responsavel
    capital_social := row.capital_social
    porte_empresa := row.porte_empresa
    ente_federativo_responsavel := row.ente_federativo_responsavel
    data_atualizacao := none }

/-- One iteration of the `empresa` branch of `_upsert_chunk_inteligente`:
existence check by `cnpj_basico`, then either the gated UPDATE (counted when
`cursor.rowcount > 0`, i.e. when some row matched key and gate) or the
guarded INSERT.  Result: (store, inserted, updated). -/
def upsertRowEmpresa (store : List Empresa) (row : EmpresaRow) :
    List Empresa × Nat × Nat :=
  if store.any (fun r => sqlEq r.cnpj_basico row.cnpj_basico) then
    let hit := fun r =>
      sqlEq r.cnpj_basico row.cnpj_basico && empresaGate r row.data_atualizacao
    let store' := store.map (fun r => if hit r then empresaApplyUpdate row r else r)
    (store', 0, if store.countP hit > 0 then 1 else 0)
  else if razaoSocialOk row.razao_social then
    (store ++ [empresaInsert row], 1, 0)
  else
    (store, 0, 0)

/-- The five string-valued mergeable Company fields (capital is handled by
its numeric rule). -/
inductive EmpresaMF
  | razao_social | natureza_juridica | qualificacao_responsavel
  | porte_empresa | ente_federativo_responsavel
deriving DecidableEq

def empresaRowMF : EmpresaMF → EmpresaRow → Option String
  | .razao_social, r => r.razao_social
  | .natureza_juridica, r => r.natureza_juridica
  | .qualificacao_responsavel, r => r.qualificacao_responsavel
  | .porte_empresa, r => r.porte_empresa
  | .ente_federativo_responsavel, r => r.ente_federativo_responsavel

def empresaMF : EmpresaMF → Empresa → Option String
  | .razao_social, r => r.razao_social
  | .natureza_juridica, r => r.natureza_juridica
  | .qualificacao_responsavel, r => r.qualificacao_responsavel
  | .porte_empresa, r => r.porte_empresa
  | .ente_federativo_responsavel, r => r.ente_federativo_responsavel

/-! Basic merge lemmas. -/

theorem mergeField_of_blank {v : Option String} (h : blankB v = true)
    (st : Option String) : mergeField v st = st := by
  cases v with
  | none => rfl
  | some s =>
    simp [blankB] at h
    simp [mergeField, sqlNullif, sqlCoalesce, h]

theorem mergeField_of_nonblank {v : Option String} (h : blankB v = false)
    (st : Option String) : mergeField v st = v := by
  cases v with
  | none => simp [blankB] at h
  | some s =>
    simp [blankB] at h
    simp [mergeField, sqlNullif, sqlCoalesce, h]

theorem mergeField_self (v : Option String) : mergeField v v = v := by
  cases v with
  | none => rfl
  | some s =>
    by_cases h : s = ""
    · subst h; rfl
    · simp [mergeField, sqlNullif, sqlCoalesce, h]

theorem sqlEq_self {v : Option String} (h : v.isSome = true) : sqlEq v v = true := by
  cases v with
  | none => simp at h
  | some s => simp [sqlEq]

/-! ## Establishment (`estabelecimento`) -/

/-- A processed Establishment row (all columns strings-or-NULL, stamp
attached by the pipeline). -/
structure EstabRow where
  cnpj_basico : Option String
  cnpj_ordem : Option String
  cnpj_dv : Option String
  identificador_matriz_filial : Option String
  nome_fantasia : Option String
  situacao_cadastral : Option String
  data_situacao_cadastral : Option String
  motivo_situacao_cadastral : Option String
  nome_cidade_exterior : Option String
  pais : Option String
  data_inicio_atividade : Option String
  cnae_fiscal_principal : Option String
  cnae_fiscal_secundaria : Option String
  tipo_logradouro : Option String
  logradouro : Option String
  numero : Option String
  complemento : Option String
  bairro : Option String
  cep : Option String
  uf : Option String
  municipio : Option String
  ddd1 : Option String
  telefone1 : Option String
  ddd2 : Option String
  telefone2 : Option String
  ddd_fax : Option String
  fax : Option String
  email : Option String
  situacao_especial : Option String
  data_situacao_especial : Option String
  data_atualizacao : String
deriving DecidableEq

/-- A stored `estabelecimento` record; `data_atualizacao` is NULL right after
insert because it is absent from `estrutura_colunas['estabelecimento']`. -/
structure Estab where
  cnpj_basico : Option String
  cnpj_ordem : Option String
  cnpj_dv : Option String
  identificador_matriz_filial : Option String
  nome_fantasia : Option String
  situacao_cadastral : Option String
  data_situacao_cadastral : Option String
  motivo_situacao_cadastral : Option String
  nome_cidade_exterior : Option String
  pais : Option String
  data_inicio_atividade : Option String
  cnae_fiscal_principal : Option String
  cnae_fiscal_secundaria : Option String
  tipo_logradouro : Option String
  logradouro : Option String
  numero : Option String
  complemento : Option String
  bairro : Option String
  cep : Option String
  uf : Option String
  municipio : Option String
  ddd1 : Option String
  telefone1 : Option String
  ddd2 : Option String
  telefone2 : Option String
  ddd_fax : Option String
  fax : Option String
  email : Option String
  situacao_especial : Option String
  data_situacao_especial : Option String
  data_atualizacao : Option String
deriving DecidableEq

/-- The WHERE key match of the Establishment lookup and UPDATE:
`cnpj_basico = ? AND cnpj_ordem = ? AND cnpj_dv = ?` (three-valued). -/
def estabMatch (r : Estab) (row : EstabRow) : Bool :=
  sqlEq r.cnpj_basico row.cnpj_basico && sqlEq r.cnpj_ordem row.cnpj_ordem &&
    sqlEq r.cnpj_dv row.cnpj_dv

/-- The SET clause of the Establishment UPDATE: every non-key column merged
with `COALESCE(NULLIF(?, ''), col)`, and `data_atualizacao = ?`
unconditionally. -/
def estabApplyUpdate (row : EstabRow) (st : Estab) : Estab :=
  { st with
    identificador_matriz_filial :=
      mergeField row.identificador_matriz_filial st.identificador_matriz_filial
    nome_fantasia := mergeField row.nome_fantasia st.nome_fantasia
    situacao_cadastral := mergeField row.situacao_cadastral st.situacao_cadastral
    data_situacao_cadastral :=
      mergeField row.data_situacao_cadastral st.data_situacao_cadastral
    motivo_situacao_cadastral :=
      mergeField row.motivo_situacao_cadastral st.motivo_situacao_cadastral
    nome_cidade_exterior :=
      mergeField row.nome_cidade_exterior st.nome_cidade_exterior
    pais := mergeField row.pais st.pais
    data_inicio_atividade :=
      mergeField row.data_inicio_atividade st.data_inicio_atividade
    cnae_fiscal_principal :=
      mergeField row.cnae_fiscal_principal st.cnae_fiscal_principal
    cnae_fiscal_secundaria :=
      mergeField row.cnae_fiscal_secundaria st.cnae_fiscal_secundaria
    tipo_logradouro := mergeField row.tipo_logradouro st.tipo_logradouro
    logradouro := mergeField row.logradouro st.logradouro
    numero := mergeField row.numero st.numero
    complemento := mergeField row.complemento st.complemento
    bairro := mergeField row.bairro st.bairro
    cep := mergeField row.cep st.cep
    uf := mergeField row.uf st.uf
    municipio := mergeField row.municipio st.municipio
    ddd1 := mergeField row.ddd1 st.ddd1
    telefone1 := mergeField row.telefone1 st.telefone1
    ddd2 := mergeField row.ddd2 st.ddd2
    telefone2 := mergeField row.telefone2 st.telefone2
    ddd_fax := mergeField row.ddd_fax st.ddd_fax
    fax := mergeField row.fax st.fax
    email := mergeField row.email st.email
    situacao_especial := mergeField row.situacao_especial st.situacao_especial
    data_situacao_especial :=
      mergeField row.data_situacao_especial st.data_situacao_especial
    data_atualizacao := some row.data_atualizacao }

/-- INSERT of a new Establishment (unconditional, NULL columns omitted,
`data_atualizacao` not in the insert column list). -/
def estabInsert (row : EstabRow) : Estab :=
  { cnpj_basico := row.cnpj_basico
    cnpj_ordem := row.cnpj_ordem
    cnpj_dv := row.cnpj_dv
    identificador_matriz_filial := row.identificador_matriz_filial
    nome_fantasia := row.nome_fantasia
    situacao_cadastral := row.situacao_cadastral
    data_situacao_cadastral := row.data_situacao_cadastral
    motivo_situacao_cadastral := row.motivo_situacao_cadastral
    nome_cidade_exterior := row.nome_cidade_exterior
    pais := row.pais
    data_inicio_atividade := row.data_inicio_atividade
    cnae_fiscal_principal := row.cnae_fiscal_principal
    cnae_fiscal_secundaria := row.cnae_fiscal_secundaria
    tipo_logradouro := row.tipo_logradouro
    logradouro := row.logradouro
    numero := row.numero
    complemento := row.complemento
    bairro := row.bairro
    cep := row.cep
    uf := row.uf
    municipio := row.municipio
    ddd1 := row.ddd1
    telefone1 := row.telefone1
    ddd2 := row.ddd2
    telefone2 := row.telefone2
    ddd_fax := row.ddd_fax
    fax := row.fax
    email := row.email
    situacao_especial := row.situacao_especial
    data_situacao_especial := row.data_situacao_especial
    data_atualizacao := none }

/-- One iteration of the `estabelecimento` branch of
`_upsert_chunk_inteligente`: lookup by the 3-part key, UPDATE every matched
row (no further gate), else INSERT. -/
def upsertRowEstab (store : List Estab) (row : EstabRow) :
    List Estab × Nat × Nat :=
  if store.any (fun r => estabMatch r row) then
    let store' := store.map (fun r => if estabMatch r row then estabApplyUpdate row r else r)
    (store', 0, if store.countP (fun r => estabMatch r row) > 0 then 1 else 0)
  else
    (store ++ [estabInsert row], 1, 0)

/-- The 27 mergeable (non-key) Establishment fields. -/
inductive EstabMF
  | identificador_matriz_filial | nome_fantasia | situacao_cadastral
  | data_situacao_cadastral | motivo_situacao_cadastral | nome_cidade_exterior
  | pais | data_inicio_atividade | cnae_fiscal_principal
  | cnae_fiscal_secundaria | tipo_logradouro | logradouro | numero
  | complemento | bairro | cep | uf | municipio | ddd1 | telefone1 | ddd2
  | telefone2 | ddd_fax | fax | email | situacao_especial
  | data_situacao_especial
deriving DecidableEq

def estabRowMF : EstabMF → EstabRow → Option String
  | .identificador_matriz_filial, r => r.identificador_matriz_filial
  | .nome_fantasia, r => r.nome_fantasia
  | .situacao_cadastral, r => r.situacao_cadastral
  | .data_situacao_cadastral, r => r.data_situacao_cadastral
  | .motivo_situacao_cadastral, r => r.motivo_situacao_cadastral
  | .nome_cidade_exterior, r => r.nome_cidade_exterior
  | .pais, r => r.pais
  | .data_inicio_atividade, r => r.data_inicio_atividade
  | .cnae_fiscal_principal, r => r.cnae_fiscal_principal
  | .cnae_fiscal_secundaria, r => r.cnae_fiscal_secundaria
  | .tipo_logradouro, r => r.tipo_logradouro
  | .logradouro, r => r.logradouro
  | .numero, r => r.numero
  | .complemento, r => r.complemento
  | .bairro, r => r.bairro
  | .cep, r => r.cep
  | .uf, r => r.uf
  | .municipio, r => r.municipio
  | .ddd1, r => r.ddd1
  | .telefone1, r => r.telefone1
  | .ddd2, r => r.ddd2
  | .telefone2, r => r.telefone2
  | .ddd_fax, r => r.ddd_fax
  | .fax, r => r.fax
  | .email, r => r.email
  | .situacao_especial, r => r.situacao_especial
  | .data_situacao_especial, r => r.data_situacao_especial

def estabMF : EstabMF → Estab → Option String
  | .identificador_matriz_filial, r => r.identificador_matriz_filial
  | .nome_fantasia, r => r.nome_fantasia
  | .situacao_cadastral, r => r.situacao_cadastral
  | .data_situacao_cadastral, r => r.data_situacao_cadastral
  | .motivo_situacao_cadastral, r => r.motivo_situacao_cadastral
  | .nome_cidade_exterior, r => r.nome_cidade_exterior
  | .pais, r => r.pais
  | .data_inicio_atividade, r => r.data_inicio_atividade
  | .cnae_fiscal_principal, r => r.cnae_fiscal_principal
  | .cnae_fiscal_secundaria, r => r.cnae_fiscal_secundaria
  | .tipo_logradouro, r => r.tipo_logradouro
  | .logradouro, r => r.logradouro
  | .numero, r => r.numero
  | .complemento, r => r.complemento
  | .bairro, r => r.bairro
  | .cep, r => r.cep
  | .uf, r => r.uf
  | .municipio, r => r.municipio
  | .ddd1, r => r.ddd1
  | .telefone1, r => r.telefone1
  | .ddd2, r => r.ddd2
  | .telefone2, r => r.telefone2
  | .ddd_fax, r => r.ddd_fax
  | .fax, r => r.fax
  | .email, r => r.email
  | .situacao_especial, r => r.situacao_especial
  | .data_situacao_especial, r => r.data_situacao_especial

/-! ## Partner (`socio`) -/

/-- A processed Partner row. -/
structure SocioRow where
  cnpj_basico : Option String
  identificador_socio : Option String
  nome_socio_razao_social : Option String
  cpf_cnpj_socio : Option String
  qualificacao_socio : Option String
  data_entrada_sociedade : Option String
  pais : Option String
  representante_legal : Option String
  nome_representante_legal : Option String
  qualificacao_representante_legal : Option String
  faixa_etaria : Option String
  data_atualizacao : String
deriving DecidableEq

/-- A stored `socio` record (`data_atualizacao` NULL right after insert). -/
structure Socio where
  cnpj_basico : Option String
  identificador_socio : Option String
  nome_socio_razao_social : Option String
  cpf_cnpj_socio : Option String
  qualificacao_socio : Option String
  data_entrada_sociedade : Option String
  pais : Option String
  representante_legal : Option String
  nome_representante_legal : Option String
  qualificacao_representante_legal : Option String
  faixa_etaria : Option String
  data_atualizacao : Option String
deriving DecidableEq

/-- The Partner lookup / UPDATE key match:
`cnpj_basico = ? AND nome_socio_razao_social = ? AND cpf_cnpj_socio = ?`.
The parameter bound for `cpf_cnpj_socio` is `row.get('cpf_cnpj_socio', '')`,
i.e. the row value itself (the column is always present), which is NULL for
a blank tax id — and `cpf_cnpj_socio = NULL` never matches. -/
def socioMatch (r : Socio) (row : SocioRow) : Bool :=
  sqlEq r.cnpj_basico row.cnpj_basico &&
    sqlEq r.nome_socio_razao_social row.nome_socio_razao_social &&
    sqlEq r.cpf_cnpj_socio row.cpf_cnpj_socio

/-- The SET clause of the Partner UPDATE. -/
def socioApplyUpdate (row : SocioRow) (st : Socio) : Socio :=
  { st with
    identificador_socio :=
      mergeField row.identificador_socio st.identificador_socio
    qualificacao_socio := mergeField row.qualificacao_socio st.qualificacao_socio
    data_entrada_sociedade :=
      mergeField row.data_entrada_sociedade st.data_entrada_sociedade
    pais := mergeField row.pais st.pais
    representante_legal :=
      mergeField row.representante_legal st.representante_legal
    nome_representante_legal :=
      mergeField row.nome_representante_legal st.nome_representante_legal
    qualificacao_representante_legal :=
      mergeField row.qualificacao_representante_legal
        st.qualificacao_representante_legal
    faixa_etaria := mergeField row.faixa_etaria st.faixa_etaria
    data_atualizacao := some row.data_atualizacao }

/-- INSERT of a new Partner (unconditional; the `socio` table has no primary
key, so the store accepts any number of rows). -/
def socioInsert (row : SocioRow) : Socio :=
  { cnpj_basico := row.cnpj_basico
    identificador_socio := row.identificador_socio
    nome_socio_razao_social := row.nome_socio_razao_social
    cpf_cnpj_socio := row.cpf_cnpj_socio
    qualificacao_socio := row.qualificacao_socio
    data_entrada_sociedade := row.data_entrada_sociedade
    pais := row.pais
    representante_legal := row.representante_legal
    nome_representante_legal := row.nome_representante_legal
    qualificacao_representante_legal := row.qualificacao_representante_legal
    faixa_etaria := row.faixa_etaria
    data_atualizacao := none }

/-- One iteration of the `socio` branch of `_upsert_chunk_inteligente`. -/
def upsertRowSocio (store : List Socio) (row : SocioRow) :
    List Socio × Nat × Nat :=
  if store.any (fun r => socioMatch r row) then
    let store' := store.map (fun r => if socioMatch r row then socioApplyUpdate row r else r)
    (store', 0, if store.countP (fun r => socioMatch r row) > 0 then 1 else 0)
  else
    (store ++ [socioInsert row], 1, 0)

/-- The 8 mergeable (non-key) Partner fields. -/
inductive SocioMF
  | identificador_socio | qualificacao_socio | data_entrada_sociedade
  | pais | representante_legal | nome_representante_legal
  | qualificacao_representante_legal | faixa_etaria
deriving DecidableEq

def socioRowMF : SocioMF → SocioRow → Option String
  | .identificador_socio, r => r.identificador_socio
  | .qualificacao_socio, r => r.qualificacao_socio
  | .data_entrada_sociedade, r => r.data_entrada_sociedade
  | .pais, r => r.pais
  | .representante_legal, r => r.representante_legal
  | .nome_representante_legal, r => r.nome_representante_legal
  | .qualificacao_representante_legal, r => r.qualificacao_representante_legal
  | .faixa_etaria, r => r.faixa_etaria

def socioMF : SocioMF → Socio → Option String
  | .identificador_socio, r => r.identificador_socio
  | .qualificacao_socio, r => r.qualificacao_socio
  | .data_entrada_sociedade, r => r.data_entrada_sociedade
  | .pais, r => r.pais
  | .representante_legal, r => r.representante_legal
  | .nome_representante_legal, r => r.nome_representante_legal
  | .qualificacao_representante_legal, r => r.qualificacao_representante_legal
  | .faixa_etaria, r => r.faixa_etaria

/-! ## Deduplicator (`_remover_duplicatas`)

pandas `drop_duplicates(subset=key)` with the default `keep='first'`:
the first row bearing each key survives, order is preserved, and missing
values (None/NaN) compare equal — hence plain `Option` equality here, in
contrast to `sqlEq` used against the store. -/

def dedupBy {α β : Type} [DecidableEq β] (k : α → β) : List α → List α
  | [] => []
  | a :: tl => a :: dedupBy k (tl.filter (fun x => k x ≠ k a))
termination_by l => l.length
decreasing_by
  simp only [List.length_cons]
  exact Nat.lt_succ_of_le (List.length_filter_le _ _)

/-- Natural key used to deduplicate `empresa` chunks. -/
def empresaRowKey (r : EmpresaRow) : Option String := r.cnpj_basico

/-- Natural key used to deduplicate `estabelecimento` chunks. -/
def estabRowKey (r : EstabRow) : Option String × Option String × Option String :=
  (r.cnpj_basico, r.cnpj_ordem, r.cnpj_dv)

/-- Natural key used to deduplicate `socio` chunks. -/
def socioRowKey (r : SocioRow) : Option String × Option String × Option String :=
  (r.cnpj_basico, r.nome_socio_razao_social, r.cpf_cnpj_socio)

def removerDuplicatasEmpresa (df : List EmpresaRow) : List EmpresaRow :=
  dedupBy empresaRowKey df

def removerDuplicatasEstab (df : List EstabRow) : List EstabRow :=
  dedupBy estabRowKey df

def removerDuplicatasSocio (df : List SocioRow) : List SocioRow :=
  dedupBy socioRowKey df

theorem dedupBy_subset {α β : Type} [DecidableEq β] (k : α → β) :
    ∀ (rows : List α), ∀ r ∈ dedupBy k rows, r ∈ rows
  | [] => by simp [dedupBy]
  | a :: tl => by
    intro r hr
    rw [dedupBy] at hr
    rcases List.mem_cons.mp hr with h | h
    · exact h ▸ List.mem_cons_self _ _
    · have := dedupBy_subset k (tl.filter (fun x => k x ≠ k a)) r h
      exact List.mem_cons_of_mem _ (List.mem_of_mem_filter this)
termination_by rows => rows.length
decreasing_by
  simp only [List.length_cons]
  exact Nat.lt_succ_of_le (List.length_filter_le _ _)

theorem dedupBy_nodup_keys {α β : Type} [DecidableEq β] (k : α → β) :
    ∀ (rows : List α), ((dedupBy k rows).map k).Nodup
  | [] => by simp [dedupBy]
  | a :: tl => by
    rw [dedupBy]
    simp only [List.map_cons, List.nodup_cons]
    constructor
    · intro hmem
      rcases List.mem_map.mp hmem with ⟨r, hr, hk⟩
      have hrt := dedupBy_subset k _ r hr
      have := List.of_mem_filter hrt
      simp only [ne_eq, decide_not, Bool.not_eq_true', decide_eq_false_iff_not] at this
      exact this hk
    · exact dedupBy_nodup_keys k (tl.filter (fun x => k x ≠ k a))
termination_by rows => rows.length
decreasing_by
  simp only [List.length_cons]
  exact Nat.lt_succ_of_le (List.length_filter_le _ _)

theorem dedupBy_covers {α β : Type} [DecidableEq β] (k : α → β) :
    ∀ (rows : List α), ∀ r ∈ rows, ∃ r' ∈ dedupBy k rows, k r' = k r
  | [] => by simp
  | a :: tl => by
    intro r hr
    by_cases hk : k r = k a
    · exact ⟨a, by rw [dedupBy]; exact List.mem_cons_self _ _, hk.symm⟩
    · rcases List.mem_cons.mp hr with h | h
      · exact absurd (congrArg k h) hk
      · have hrf : r ∈ tl.filter (fun x => k x ≠ k a) := by
          apply List.mem_filter.mpr
          exact ⟨h, by simpa using hk⟩
        rcases dedupBy_covers k (tl.filter (fun x => k x ≠ k a)) r hrf with ⟨r', hr', hk'⟩
        exact ⟨r', by rw [dedupBy]; exact List.mem_cons_of_mem _ hr', hk'⟩
termination_by rows => rows.length
decreasing_by
  simp only [List.length_cons]
  exact Nat.lt_succ_of_le (List.length_filter_le _ _)

theorem dedupBy_keeps_first {α β : Type} [DecidableEq β] (k : α → β) :
    ∀ (rows l₁ : List α) (r : α) (l₂ : List α), rows = l₁ ++ r :: l₂ →
      (∀ x ∈ l₁, k x ≠ k r) → r ∈ dedupBy k rows
  | [], l₁, r, l₂ => by intro h _; exact absurd h (by simp)
  | a :: tl, l₁, r, l₂ => by
    intro heq hne
    cases l₁ with
    | nil =>
      simp only [List.nil_append, List.cons.injEq] at heq
      rw [dedupBy, heq.1]
      exact List.mem_cons_self _ _
    | cons b l₁' =>
      simp only [List.cons_append, List.cons.injEq] at heq
      obtain ⟨hb, htl⟩ := heq
      have hbr : k b ≠ k r := hne b (List.mem_cons_self _ _)
      have hra : k r ≠ k a := fun h => hbr ((congrArg k hb).symm.trans h.symm)
      rw [dedupBy]
      apply List.mem_cons_of_mem
      have hsplit : tl.filter (fun x => k x ≠ k a) =
          (l₁'.filter (fun x => k x ≠ k a)) ++ r :: (l₂.filter (fun x => k x ≠ k a)) := by
        rw [htl, List.filter_append, List.filter_cons]
        simp [hra]
      exact dedupBy_keeps_first k (tl.filter (fun x => k x ≠ k a))
        (l₁'.filter (fun x => k x ≠ k a)) r (l₂.filter (fun x => k x ≠ k a)) hsplit
        (fun x hx => hne x (List.mem_cons_of_mem _ (List.mem_of_mem_filter hx)))
termination_by rows => rows.length
decreasing_by
  simp only [List.length_cons]
  exact Nat.lt_succ_of_le (List.length_filter_le _ _)

/-! ## Codepoint order lemmas (for the folder / file sorting) -/

theorem lexLe_refl : ∀ cs : List Char, lexLe cs cs = true
  | [] => rfl
  | a :: as => by simp [lexLe, lexLe_refl as]

theorem lexLe_total : ∀ a b : List Char, lexLe a b = true ∨ lexLe b a = true
  | [], _ => Or.inl rfl
  | _ :: _, [] => Or.inr rfl
  | a :: as, b :: bs => by
    rcases Nat.lt_trichotomy a.toNat b.toNat with h | h | h
    · left; simp [lexLe, h]
    · rcases lexLe_total as bs with ih | ih
      · left; simp [lexLe, h, Nat.lt_irrefl, ih]
      · right; simp [lexLe, h.symm, Nat.lt_irrefl, ih]
    · right; simp [lexLe, h]

theorem lexLe_trans : ∀ a b c : List Char,
    lexLe a b = true → lexLe b c = true → lexLe a c = true
  | [], _, _ => by intro _ _; rfl
  | a :: as, [], c => by intro h _; simp [lexLe] at h
  | a :: as, b :: bs, [] => by intro _ h; simp [lexLe] at h
  | a :: as, b :: bs, c :: cs => by
    intro h1 h2
    simp only [lexLe] at h1 h2 ⊢
    by_cases hab : a.toNat < b.toNat
    · by_cases hbc : b.toNat < c.toNat
      · simp [Nat.lt_trans hab hbc]
      · simp only [hbc, if_false] at h2
        by_cases hbc' : b.toNat = c.toNat
        · simp [hbc' ▸ hab]
        · simp [hbc'] at h2
    · simp only [hab, if_false] at h1
      by_cases hab' : a.toNat = b.toNat
      · simp only [hab', if_true] at h1
        by_cases hbc : b.toNat < c.toNat
        · simp [hab' ▸ hbc]
        · simp only [hbc, if_false] at h2
          by_cases hbc' : b.toNat = c.toNat
          · rw [if_pos hbc'] at h2
            have hac : ¬ a.toNat < c.toNat := by
              rw [hab', hbc']; exact Nat.lt_irrefl _
            rw [if_neg hac, if_pos (hab'.trans hbc')]
            exact lexLe_trans as bs cs h1 h2
          · simp [hbc'] at h2
      · simp [hab'] at h1

theorem lexLe_antisymm : ∀ a b : List Char,
    lexLe a b = true → lexLe b a = true → a = b
  | [], [] => by intro _ _; rfl
  | [], _ :: _ => by intro _ h; simp [lexLe] at h
  | _ :: _, [] => by intro h _; simp [lexLe] at h
  | a :: as, b :: bs => by
    intro h1 h2
    simp only [lexLe] at h1 h2
    by_cases hab : a.toNat < b.toNat
    · have : ¬ b.toNat < a.toNat := Nat.lt_asymm hab
      simp only [this, if_false] at h2
      by_cases hba : b.toNat = a.toNat
      · exact absurd (hba ▸ hab) (Nat.lt_irrefl _)
      · simp [hba] at h2
    · simp only [hab, if_false] at h1
      by_cases hab' : a.toNat = b.toNat
      · simp only [hab', if_true] at h1
        have hba : ¬ b.toNat < a.toNat := by rw [hab']; exact Nat.lt_irrefl _
        rw [if_neg hba, if_pos hab'.symm] at h2
        have hchars : a = b := by
          have ha := Char.ofNat_toNat a
          have hb := Char.ofNat_toNat b
          rw [← ha, ← hb, hab']
        rw [hchars, lexLe_antisymm as bs h1 h2]
      · simp [hab'] at h1

/-! ## Folder discovery and period sequencing -/

/-- A directory entry seen by `encontrar_todas_pastas`. -/
structure DirEntry where
  name : String
  isDir : Bool
deriving DecidableEq

/-- The folder-name shape test of `encontrar_todas_pastas`:
`len == 7 and name[4] == '-' and name[:4].isdigit() and name[5:].isdigit()`. -/
def validPasta (nome : String) : Bool :=
  let cs := nome.toList
  cs.length = 7 && cs.getD 4 ' ' = '-' && (cs.take 4).all Char.isDigit &&
    (cs.drop 5).all Char.isDigit

/-- `encontrar_todas_pastas`: keep directories whose name matches the
YYYY-MM shape (anything else is silently ignored) and sort ascending
(`pastas_encontradas.sort()`, a string sort of sibling paths). -/
def encontrarTodasPastas (entries : List DirEntry) : List String :=
  List.insertionSort (fun a b => lexLe a.toList b.toList = true)
    ((entries.filter (fun e => e.isDir && validPasta e.name)).map (·.name))

/-- A classified main-table file: the folder it came from and its name. -/
structure Arquivo where
  pasta : String
  nome : String
deriving DecidableEq

/-- The sort key of `importar_dados_principais`:
`(x.parent.name[:4], x.parent.name[5:7])`. -/
def arquivoKey (a : Arquivo) : List Char × List Char :=
  (a.pasta.toList.take 4, (a.pasta.toList.drop 5).take 2)

/-- Python tuple comparison of the two string keys (lexicographic pairs). -/
def pairLe (x y : List Char × List Char) : Bool :=
  if x.1 = y.1 then lexLe x.2 y.2 else lexLe x.1 y.1

/-- `sorted(estrutura_completa[tabela], key=...)`: a stable ascending sort
by the (year, month) string pair. -/
def ordenarArquivos (files : List Arquivo) : List Arquivo :=
  List.insertionSort (fun a b => pairLe (arquivoKey a) (arquivoKey b) = true) files

theorem pairLe_refl (x : List Char × List Char) : pairLe x x = true := by
  simp [pairLe, lexLe_refl]

theorem pairLe_total (x y : List Char × List Char) :
    pairLe x y = true ∨ pairLe y x = true := by
  unfold pairLe
  by_cases h : x.1 = y.1
  · simp only [h, if_pos rfl, if_true]
    exact lexLe_total x.2 y.2
  · have h' : y.1 ≠ x.1 := fun hh => h hh.symm
    simp only [if_neg h, if_neg h']
    exact lexLe_total x.1 y.1

theorem pairLe_trans (x y z : List Char × List Char)
    (h1 : pairLe x y = true) (h2 : pairLe y z = true) : pairLe x z = true := by
  unfold pairLe at h1 h2 ⊢
  by_cases hxy : x.1 = y.1
  · rw [if_pos hxy] at h1
    by_cases hyz : y.1 = z.1
    · rw [if_pos hyz] at h2
      rw [if_pos (hxy.trans hyz)]
      exact lexLe_trans _ _ _ h1 h2
    · rw [if_neg hyz] at h2
      rw [if_neg (hxy ▸ hyz), hxy]
      exact h2
  · rw [if_neg hxy] at h1
    by_cases hyz : y.1 = z.1
    · rw [if_neg (fun h => hxy (h.trans hyz.symm)), ← hyz]
      exact h1
    · rw [if_neg hyz] at h2
      by_cases hxz : x.1 = z.1
      · exfalso
        exact hyz (lexLe_antisymm _ _ h2 (hxz ▸ h1))
      · rw [if_neg hxz]
        exact lexLe_trans _ _ _ h1 h2

/-! ## Reference table loader (`importar_tabelas_referencia`) -/

/-- One temporal folder together with the reference files (their parsed row
lists) found in it for a fixed reference table type. -/
structure Pasta where
  name : String
  refFiles : List (List (String × String))
deriving DecidableEq

/-- `escanear_estrutura_completa` restricted to one reference type: folders
are discovered sorted ascending by name, and each folder's files are
appended in that order, so the resulting file list is in ascending period
order. -/
def escanearRefTipo (pastas : List Pasta) : List (List (String × String)) :=
  (List.insertionSort (fun a b => lexLe a.name.toList b.name.toList = true) pastas).flatMap
    (fun p => p.refFiles)

/-- `importar_tabelas_referencia` for one table: if any file of this type was
discovered, take the FIRST one (`estrutura_completa[tabela][0]`), drop its
full-row duplicates (`df.drop_duplicates()`), and wholesale-replace the
table (`to_sql(..., if_exists='replace')`); otherwise leave the table as is. -/
def importarTabelaReferencia (estrutura : List (List (String × String)))
    (tbl : List (String × String)) : List (String × String) :=
  match estrutura with
  | [] => tbl
  | rows :: _ => dedupBy (fun r => r) rows

/-! ## Further helper lemmas -/

theorem blankB_of_razaoOk {v : Option String} (h : razaoSocialOk v = true) :
    blankB v = false := by
  cases v with
  | none => simp [razaoSocialOk] at h
  | some s =>
    simp only [razaoSocialOk, Bool.and_eq_true, Bool.not_eq_true'] at h
    have hs : s ≠ "" := by
      intro he
      rw [he] at h
      simp at h
    simp [blankB, hs]

/-! ## Sample data used by witnesses and counterexamples -/

/-- Stored Company record with every identity field populated. -/
def empStA : Empresa :=
  { cnpj_basico := some "11111111", razao_social := some "OLD NAME",
    natureza_juridica := some "2062", qualificacao_responsavel := some "49",
    capital_social := 10000, porte_empresa := some "05",
    ente_federativo_responsavel := none, data_atualizacao := some "2023-04-01" }

/-- Stored Company record exactly as an insert of a complete row leaves it:
identity fields populated, `data_atualizacao` NULL. -/
def empStFrozen : Empresa :=
  { cnpj_basico := some "11111111", razao_social := some "ACME LTDA",
    natureza_juridica := some "2062", qualificacao_responsavel := none,
    capital_social := 10000, porte_empresa := none,
    ente_federativo_responsavel := none, data_atualizacao := none }

/-- Stored Company record missing its legal-nature code. -/
def empStIncomplete : Empresa :=
  { cnpj_basico := some "11111111", razao_social := some "ACME LTDA",
    natureza_juridica := none, qualificacao_responsavel := none,
    capital_social := 10000, porte_empresa := none,
    ente_federativo_responsavel := none, data_atualizacao := none }

/-- Incoming Company row carrying a new non-blank `porte_empresa`. -/
def empRowPorte : EmpresaRow :=
  { cnpj_basico := some "11111111", razao_social := some "ACME LTDA",
    natureza_juridica := some "2062", qualificacao_responsavel := none,
    capital_social := 0, porte_empresa := some "05",
    ente_federativo_responsavel := none, data_atualizacao := "2023-06-01" }

/-- Incoming Company row with blank capital (parsed to 0) and blank porte. -/
def empRowZero : EmpresaRow :=
  { cnpj_basico := some "11111111", razao_social := some "ACME LTDA",
    natureza_juridica := some "2062", qualificacao_responsavel := none,
    capital_social := 0, porte_empresa := none,
    ente_federativo_responsavel := none, data_atualizacao := "2023-06-01" }

/-- Incoming Company row with nonzero capital 25000.50. -/
def empRowCap : EmpresaRow :=
  { cnpj_basico := some "11111111", razao_social := some "ACME LTDA",
    natureza_juridica := some "2062", qualificacao_responsavel := none,
    capital_social := 25000.5, porte_empresa := none,
    ente_federativo_responsavel := none, data_atualizacao := "2023-06-01" }

/-- Raw Company row with an unparseable capital value. -/
def empRawBad : EmpresaRaw :=
  { cnpj_basico := some "33333333", razao_social := some "ACME",
    natureza_juridica := some "2062", qualificacao_responsavel := none,
    capital_social := some "abc", porte_empresa := none,
    ente_federativo_responsavel := none }

/-- Stored Establishment with a name and a phone, remaining fields NULL.
Field order: 3 keys, the 27 descriptive fields, stamp. -/
def estStA : Estab :=
  ⟨some "22222222", some "0001", some "91",
   some "1", some "PADARIA CENTRAL", some "02", none, none, none,
   none, none, some "4781400", none, none, none, none, none, none,
   none, none, none, some "48", some "5550100", none, none, none, none,
   none, none, none, some "2023-04-01"⟩

/-- Incoming Establishment row for the same key with every mergeable field
blank. -/
def estRowBlank : EstabRow :=
  ⟨some "22222222", some "0001", some "91",
   none, none, none, none, none, none,
   none, none, none, none, none, none, none, none, none,
   none, none, none, none, none, none, none, none, none,
   none, none, none, "2023-06-01"⟩

/-- Establishment row with populated key and fantasy name. -/
def estRowX : EstabRow :=
  ⟨some "22222222", some "0001", some "91",
   some "1", some "PADARIA", none, none, none, none,
   none, none, none, none, none, none, none, none, none,
   none, none, none, none, none, none, none, none, none,
   none, none, none, "2023-05-01"⟩

/-- Two Establishment rows sharing the natural key but with different
`nome_fantasia`, in file order A then B. -/
def estRowA2 : EstabRow :=
  ⟨some "44444444", some "0001", some "52",
   some "1", some "A", none, none, none, none,
   none, none, none, none, none, none, none, none, none,
   none, none, none, none, none, none, none, none, none,
   none, none, none, "2023-05-01"⟩

def estRowB2 : EstabRow :=
  ⟨some "44444444", some "0001", some "52",
   some "1", some "B", none, none, none, none,
   none, none, none, none, none, none, none, none, none,
   none, none, none, none, none, none, none, none, none,
   none, none, none, "2023-05-01"⟩

/-- Stored Partner with a populated tax id. -/
def socStA : Socio :=
  { cnpj_basico := some "12345678", identificador_socio := some "2",
    nome_socio_razao_social := some "MARIA DOS SANTOS",
    cpf_cnpj_socio := some "00011122233", qualificacao_socio := some "49",
    data_entrada_sociedade := none, pais := some "105",
    representante_legal := none, nome_representante_legal := none,
    qualificacao_representante_legal := none, faixa_etaria := some "4",
    data_atualizacao := some "2023-04-01" }

/-- Incoming Partner row for the same key with every mergeable field blank. -/
def socRowBlank : SocioRow :=
  { cnpj_basico := some "12345678", identificador_socio := none,
    nome_socio_razao_social := some "MARIA DOS SANTOS",
    cpf_cnpj_socio := some "00011122233", qualificacao_socio := none,
    data_entrada_sociedade := none, pais := none,
    representante_legal := none, nome_representante_legal := none,
    qualificacao_representante_legal := none, faixa_etaria := none,
    data_atualizacao := "2023-07-01" }

/-- Partner row with a populated tax id (used for idempotence). -/
def socRowFull : SocioRow :=
  { cnpj_basico := some "12345678", identificador_socio := some "2",
    nome_socio_razao_social := some "MARIA DOS SANTOS",
    cpf_cnpj_socio := some "00011122233", qualificacao_socio := some "49",
    data_entrada_sociedade := none, pais := some "105",
    representante_legal := none, nome_representante_legal := none,
    qualificacao_representante_legal := none, faixa_etaria := some "4",
    data_atualizacao := "2023-05-01" }

/-- Partner row whose tax id is blank (NULL after the pipeline cleaning). -/
def socRowNullCpf : SocioRow :=
  { cnpj_basico := some "12345678", identificador_socio := some "2",
    nome_socio_razao_social := some "JOAO DA SILVA",
    cpf_cnpj_socio := none, qualificacao_socio := some "49",
    data_entrada_sociedade := none, pais := none,
    representante_legal := none, nome_representante_legal := none,
    qualificacao_representante_legal := none, faixa_etaria := none,
    data_atualizacao := "2023-06-01" }

/-! ## Claim theorems -/

/-- C2: non-regression of stored data.  For every mergeable field of every
entity type, when an existing record is updated, a blank (NULL or empty)
incoming value never overwrites a non-blank stored value: the string fields
through `COALESCE(NULLIF(?, ''), col)`, and the Company capital through its
CASE rule, with any blank capital having been parsed to 0 beforehand. -/
theorem spec_c2_non_regression :
    (∀ (f : EmpresaMF) (row : EmpresaRow) (st : Empresa),
        blankB (empresaRowMF f row) = true → blankB (empresaMF f st) = false →
        empresaMF f (empresaApplyUpdate row st) = empresaMF f st)
    ∧ (∀ (row : EmpresaRow) (st : Empresa), row.capital_social = 0 →
        (empresaApplyUpdate row st).capital_social = st.capital_social)
    ∧ (∀ v : Option String, blankB v = true → capitalToNumeric v = 0)
    ∧ (∀ (f : EstabMF) (row : EstabRow) (st : Estab),
        blankB (estabRowMF f row) = true → blankB (estabMF f st) = false →
        estabMF f (estabApplyUpdate row st) = estabMF f st)
    ∧ (∀ (f : SocioMF) (row : SocioRow) (st : Socio),
        blankB (socioRowMF f row) = true → blankB (socioMF f st) = false →
        socioMF f (socioApplyUpdate row st) = socioMF f st) := by
  refine ⟨?_, ?_, ?_, ?_, ?_⟩
  · intro f row st hin _hst
    cases f <;> simp only [empresaRowMF] at hin <;>
      simp [empresaMF, empresaApplyUpdate, mergeField_of_blank hin]
  · intro row st h
    simp [empresaApplyUpdate, h]
  · intro v h
    cases v with
    | none => rfl
    | some s =>
      simp only [blankB, decide_eq_true_eq] at h
      subst h
      rfl
  · intro f row st hin _hst
    cases f <;> simp only [estabRowMF] at hin <;>
      simp [estabMF, estabApplyUpdate, mergeField_of_blank hin]
  · intro f row st hin _hst
    cases f <;> simp only [socioRowMF] at hin <;>
      simp [socioMF, socioApplyUpdate, mergeField_of_blank hin]

/-- C2 witness: concrete blank-over-non-blank updates leave the stored
values in place, for each entity type and for the capital rule. -/
theorem spec_c2_non_regression_witness :
    empresaMF .porte_empresa (empresaApplyUpdate empRowZero empStA) =
        empresaMF .porte_empresa empStA
    ∧ (empresaApplyUpdate empRowZero empStA).capital_social = empStA.capital_social
    ∧ capitalToNumeric none = 0
    ∧ estabMF .nome_fantasia (estabApplyUpdate estRowBlank estStA) =
        estabMF .nome_fantasia estStA
    ∧ socioMF .pais (socioApplyUpdate socRowBlank socStA) =
        socioMF .pais socStA :=
  ⟨spec_c2_non_regression.1 .porte_empresa empRowZero empStA (by decide) (by decide),
   spec_c2_non_regression.2.1 empRowZero empStA (by decide),
   spec_c2_non_regression.2.2.1 none (by decide),
   spec_c2_non_regression.2.2.2.1 .nome_fantasia estRowBlank estStA (by decide) (by decide),
   spec_c2_non_regression.2.2.2.2 .pais socRowBlank socStA (by decide) (by decide)⟩

/-- C5: the Company capital merge rule.  Within an applied update, an
incoming capital of zero (which is what every blank or unparseable capital
parses to) leaves a nonzero stored capital unchanged, and a nonzero incoming
capital replaces the stored one. -/
theorem spec_c5_capital :
    (∀ (row : EmpresaRow) (st : Empresa), st.capital_social ≠ 0 →
        row.capital_social = 0 →
        (empresaApplyUpdate row st).capital_social = st.capital_social)
    ∧ (∀ (row : EmpresaRow) (st : Empresa), row.capital_social ≠ 0 →
        (empresaApplyUpdate row st).capital_social = row.capital_social)
    ∧ (∀ v : Option String, blankB v = true → capitalToNumeric v = 0) := by
  refine ⟨?_, ?_, ?_⟩
  · intro row st _ h
    simp [empresaApplyUpdate, h]
  · intro row st h
    simp [empresaApplyUpdate, h]
  · intro v h
    cases v with
    | none => rfl
    | some s =>
      simp only [blankB, decide_eq_true_eq] at h
      subst h
      rfl

/-- C5 witness: stored capital 10000 against incoming 0 stays 10000;
incoming 25000.50 replaces it; a blank capital parses to 0. -/
theorem spec_c5_capital_witness :
    (empresaApplyUpdate empRowZero empStA).capital_social = empStA.capital_social
    ∧ (empresaApplyUpdate empRowCap empStA).capital_social = empRowCap.capital_social
    ∧ capitalToNumeric none = 0 :=
  ⟨spec_c5_capital.1 empRowZero empStA (by norm_num [empStA]) (by decide),
   spec_c5_capital.2.1 empRowCap empStA (by norm_num [empRowCap]),
   spec_c5_capital.2.2 none (by decide)⟩

/-- C10: on every Establishment or Partner update the period stamp is set
unconditionally to the incoming row's period, and a row whose mergeable
fields are all blank changes no data field — it only advances the stamp. -/
theorem spec_c10_stamp :
    (∀ (row : EstabRow) (st : Estab),
        (estabApplyUpdate row st).data_atualizacao = some row.data_atualizacao)
    ∧ (∀ (row : SocioRow) (st : Socio),
        (socioApplyUpdate row st).data_atualizacao = some row.data_atualizacao)
    ∧ (∀ (row : EstabRow) (st : Estab),
        (∀ f, blankB (estabRowMF f row) = true) →
        ∀ f, estabMF f (estabApplyUpdate row st) = estabMF f st)
    ∧ (∀ (row : SocioRow) (st : Socio),
        (∀ f, blankB (socioRowMF f row) = true) →
        ∀ f, socioMF f (socioApplyUpdate row st) = socioMF f st) := by
  refine ⟨fun row st => rfl, fun row st => rfl, ?_, ?_⟩
  · intro row st hblank f
    cases f with
    | identificador_matriz_filial =>
      exact mergeField_of_blank (hblank .identificador_matriz_filial) _
    | nome_fantasia => exact mergeField_of_blank (hblank .nome_fantasia) _
    | situacao_cadastral => exact mergeField_of_blank (hblank .situacao_cadastral) _
    | data_situacao_cadastral =>
      exact mergeField_of_blank (hblank .data_situacao_cadastral) _
    | motivo_situacao_cadastral =>
      exact mergeField_of_blank (hblank .motivo_situacao_cadastral) _
    | nome_cidade_exterior =>
      exact mergeField_of_blank (hblank .nome_cidade_exterior) _
    | pais => exact mergeField_of_blank (hblank .pais) _
    | data_inicio_atividade =>
      exact mergeField_of_blank (hblank .data_inicio_atividade) _
    | cnae_fiscal_principal =>
      exact mergeField_of_blank (hblank .cnae_fiscal_principal) _
    | cnae_fiscal_secundaria =>
      exact mergeField_of_blank (hblank .cnae_fiscal_secundaria) _
    | tipo_logradouro => exact mergeField_of_blank (hblank .tipo_logradouro) _
    | logradouro => exact mergeField_of_blank (hblank .logradouro) _
    | numero => exact mergeField_of_blank (hblank .numero) _
    | complemento => exact mergeField_of_blank (hblank .complemento) _
    | bairro => exact mergeField_of_blank (hblank .bairro) _
    | cep => exact mergeField_of_blank (hblank .cep) _
    | uf => exact mergeField_of_blank (hblank .uf) _
    | municipio => exact mergeField_of_blank (hblank .municipio) _
    | ddd1 => exact mergeField_of_blank (hblank .ddd1) _
    | telefone1 => exact mergeField_of_blank (hblank .telefone1) _
    | ddd2 => exact mergeField_of_blank (hblank .ddd2) _
    | telefone2 => exact mergeField_of_blank (hblank .telefone2) _
    | ddd_fax => exact mergeField_of_blank (hblank .ddd_fax) _
    | fax => exact mergeField_of_blank (hblank .fax) _
    | email => exact mergeField_of_blank (hblank .email) _
    | situacao_especial => exact mergeField_of_blank (hblank .situacao_especial) _
    | data_situacao_especial =>
      exact mergeField_of_blank (hblank .data_situacao_especial) _
  · intro row st hblank f
    cases f with
    | identificador_socio => exact mergeField_of_blank (hblank .identificador_socio) _
    | qualificacao_socio => exact mergeField_of_blank (hblank .qualificacao_socio) _
    | data_entrada_sociedade =>
      exact mergeField_of_blank (hblank .data_entrada_sociedade) _
    | pais => exact mergeField_of_blank (hblank .pais) _
    | representante_legal => exact mergeField_of_blank (hblank .representante_legal) _
    | nome_representante_legal =>
      exact mergeField_of_blank (hblank .nome_representante_legal) _
    | qualificacao_representante_legal =>
      exact mergeField_of_blank (hblank .qualificacao_representante_legal) _
    | faixa_etaria => exact mergeField_of_blank (hblank .faixa_etaria) _

/-- C10 witness: all-blank snapshots for the sample Establishment and
Partner advance the stamp and leave the sample data fields untouched. -/
theorem spec_c10_stamp_witness :
    (estabApplyUpdate estRowBlank estStA).data_atualizacao =
        some estRowBlank.data_atualizacao
    ∧ (socioApplyUpdate socRowBlank socStA).data_atualizacao =
        some socRowBlank.data_atualizacao
    ∧ estabMF .nome_fantasia (estabApplyUpdate estRowBlank estStA) =
        estabMF .nome_fantasia estStA
    ∧ socioMF .faixa_etaria (socioApplyUpdate socRowBlank socStA) =
        socioMF .faixa_etaria socStA :=
  ⟨spec_c10_stamp.1 estRowBlank estStA,
   spec_c10_stamp.2.1 socRowBlank socStA,
   spec_c10_stamp.2.2.1 estRowBlank estStA (fun f => by cases f <;> rfl) .nome_fantasia,
   spec_c10_stamp.2.2.2 socRowBlank socStA (fun f => by cases f <;> rfl) .faixa_etaria⟩

/-- C3 counterexample: a stored Company whose legal name and legal nature
are populated and whose stamp is NULL (the state every insert leaves behind)
is NOT updated by a key-matching row carrying a new non-blank
`porte_empresa` — the WHERE gate of the UPDATE blocks it, so key presence is
not the only requirement for update eligibility. -/
theorem spec_c3_counterexample :
    sqlEq empStFrozen.cnpj_basico empRowPorte.cnpj_basico = true
    ∧ blankB empRowPorte.porte_empresa = false
    ∧ empStFrozen.porte_empresa = none
    ∧ upsertRowEmpresa [empStFrozen] empRowPorte = ([empStFrozen], 0, 0) := by
  refine ⟨by decide, by decide, by decide, ?_⟩
  decide

/-- C3 amended: an incoming Company row whose key matches a stored record
applies the field-level coalesce update only when the UPDATE's gate passes
(stored `razao_social` or `natureza_juridica` blank, or incoming period
strictly greater than the stored stamp in text order); when the gate passes,
every non-blank incoming mergeable field replaces the stored value, and when
it fails the store is left untouched and nothing is inserted or counted. -/
theorem spec_c3_amended :
    ∀ (row : EmpresaRow) (st : Empresa),
      sqlEq st.cnpj_basico row.cnpj_basico = true →
      ((empresaGate st row.data_atualizacao = true →
          ∀ f, blankB (empresaRowMF f row) = false →
            empresaMF f (empresaApplyUpdate row st) = empresaRowMF f row)
        ∧ (empresaGate st row.data_atualizacao = false →
            upsertRowEmpresa [st] row = ([st], 0, 0))) := by
  intro row st hkey
  constructor
  · intro _hgate f hf
    cases f with
    | razao_social => exact mergeField_of_nonblank hf _
    | natureza_juridica => exact mergeField_of_nonblank hf _
    | qualificacao_responsavel => exact mergeField_of_nonblank hf _
    | porte_empresa => exact mergeField_of_nonblank hf _
    | ente_federativo_responsavel => exact mergeField_of_nonblank hf _
  · intro hgate
    simp [upsertRowEmpresa, hkey, hgate]

/-- C3 witness: with a blank stored legal nature the gate passes and the
incoming porte lands; with the frozen stored record the gate fails and the
row is a no-op. -/
theorem spec_c3_amended_witness :
    empresaMF .porte_empresa (empresaApplyUpdate empRowPorte empStIncomplete) =
        empresaRowMF .porte_empresa empRowPorte
    ∧ upsertRowEmpresa [empStFrozen] empRowPorte = ([empStFrozen], 0, 0) :=
  ⟨(spec_c3_amended empRowPorte empStIncomplete (by decide)).1 (by decide)
      .porte_empresa (by decide),
   (spec_c3_amended empRowPorte empStFrozen (by decide)).2 (by decide)⟩

/-- C1: evaluation of the Partner branch at the failing input.  A Partner
row whose `cpf_cnpj_socio` is NULL is inserted, and the identical row
applied again is NOT recognized as existing — the lookup compares
`cpf_cnpj_socio = NULL`, which never matches — so a second row with the
same (company root id, partner name, NULL tax id) natural key is inserted. -/
theorem spec_c1_null_cpf_duplicate :
    (upsertRowSocio ((upsertRowSocio [] socRowNullCpf).1) socRowNullCpf).1 =
      [socioInsert socRowNullCpf, socioInsert socRowNullCpf]
    ∧ (socioInsert socRowNullCpf).cpf_cnpj_socio = none
    ∧ socioRowKey socRowNullCpf = socioRowKey socRowNullCpf := by
  refine ⟨?_, by decide, rfl⟩
  decide

/-- C6 counterexample: applying the identical Establishment row twice does
not produce the state of applying it once — the second application turns the
NULL stamp into the row's period — and the second application reports one
updated row, not zero. -/
theorem spec_c6_counterexample :
    (upsertRowEstab ((upsertRowEstab [] estRowX).1) estRowX).2.2 = 1
    ∧ (upsertRowEstab ((upsertRowEstab [] estRowX).1) estRowX).1 ≠
        (upsertRowEstab [] estRowX).1 := by
  constructor
  · decide
  · decide

/-- C6 amended: re-applying an identical row never duplicates a record when
its key fields are non-NULL, and never regresses a field.  A Company row
with a valid legal name and a non-blank legal nature is fully idempotent:
the second application changes nothing and reports zero.  An Establishment
or Partner row leaves all data fields unchanged on the second application
but unconditionally overwrites the stamp (NULL after insert) with its period
and reports one updated row.  (A Partner row with NULL `cpf_cnpj_socio` is
instead re-inserted as a duplicate.) -/
theorem spec_c6_amended :
    (∀ row : EmpresaRow, row.cnpj_basico.isSome = true →
      razaoSocialOk row.razao_social = true →
      blankB row.natureza_juridica = false →
      upsertRowEmpresa [] row = ([empresaInsert row], 1, 0)
      ∧ upsertRowEmpresa [empresaInsert row] row = ([empresaInsert row], 0, 0))
    ∧ (∀ row : EstabRow, row.cnpj_basico.isSome = true →
        row.cnpj_ordem.isSome = true → row.cnpj_dv.isSome = true →
        upsertRowEstab [] row = ([estabInsert row], 1, 0)
        ∧ upsertRowEstab [estabInsert row] row =
            ([{ estabInsert row with data_atualizacao := some row.data_atualizacao }], 0, 1))
    ∧ (∀ row : SocioRow, row.cnpj_basico.isSome = true →
        row.nome_socio_razao_social.isSome = true →
        row.cpf_cnpj_socio.isSome = true →
        upsertRowSocio [] row = ([socioInsert row], 1, 0)
        ∧ upsertRowSocio [socioInsert row] row =
            ([{ socioInsert row with data_atualizacao := some row.data_atualizacao }], 0, 1)) := by
  refine ⟨?_, ?_, ?_⟩
  · intro row hc hr hn
    have hkey : sqlEq (empresaInsert row).cnpj_basico row.cnpj_basico = true :=
      sqlEq_self hc
    have hgate : empresaGate (empresaInsert row) row.data_atualizacao = false := by
      simp [empresaGate, empresaInsert, blankB_of_razaoOk hr, hn, sqlGtStored]
    constructor
    · simp [upsertRowEmpresa, hr]
    · simp [upsertRowEmpresa, hkey, hgate]
  · intro row hc ho hd
    have hm : estabMatch (estabInsert row) row = true := by
      simp [estabMatch, estabInsert, sqlEq_self hc, sqlEq_self ho, sqlEq_self hd]
    constructor
    · simp [upsertRowEstab]
    · have happ : estabApplyUpdate row (estabInsert row) =
          { estabInsert row with data_atualizacao := some row.data_atualizacao } := by
        simp [estabApplyUpdate, estabInsert, mergeField_self]
      simp [upsertRowEstab, hm, happ]
  · intro row hc hn hp
    have hm : socioMatch (socioInsert row) row = true := by
      simp [socioMatch, socioInsert, sqlEq_self hc, sqlEq_self hn, sqlEq_self hp]
    constructor
    · simp [upsertRowSocio]
    · have happ : socioApplyUpdate row (socioInsert row) =
          { socioInsert row with data_atualizacao := some row.data_atualizacao } := by
        simp [socioApplyUpdate, socioInsert, mergeField_self]
      simp [upsertRowSocio, hm, happ]

/-- C6 witness: the amended idempotence behavior at concrete rows of each
entity type. -/
theorem spec_c6_amended_witness :
    (upsertRowEmpresa [empresaInsert empRowPorte] empRowPorte =
        ([empresaInsert empRowPorte], 0, 0))
    ∧ (upsertRowEstab [estabInsert estRowX] estRowX =
        ([{ estabInsert estRowX with data_atualizacao := some estRowX.data_atualizacao }], 0, 1))
    ∧ (upsertRowSocio [socioInsert socRowFull] socRowFull =
        ([{ socioInsert socRowFull with data_atualizacao := some socRowFull.data_atualizacao }], 0, 1)) :=
  ⟨(spec_c6_amended.1 empRowPorte (by decide) (by decide) (by decide)).2,
   (spec_c6_amended.2.1 estRowX (by decide) (by decide) (by decide)).2,
   (spec_c6_amended.2.2 socRowFull (by decide) (by decide) (by decide)).2⟩

/-- C4 counterexample: two rows sharing an Establishment key with
`nome_fantasia` "A" then "B" in file order — the deduplicator keeps the row
with "A", the FIRST occurrence, not the last as claimed. -/
theorem spec_c4_counterexample :
    removerDuplicatasEstab [estRowA2, estRowB2] = [estRowA2]
    ∧ estabRowKey estRowA2 = estabRowKey estRowB2
    ∧ estRowA2.nome_fantasia = some "A"
    ∧ estRowB2.nome_fantasia = some "B" := by
  refine ⟨?_, by decide, by decide, by decide⟩
  simp [removerDuplicatasEstab, dedupBy, estRowA2, estRowB2, estabRowKey]

/-- C4 amended: for each entity type the deduplicator returns at most one
row per natural key, every returned row comes from the batch, every key of
the batch is represented, and the representative kept for each key is the
FIRST occurrence of that key in file order. -/
theorem spec_c4_amended :
    (∀ rows : List EstabRow,
      ((removerDuplicatasEstab rows).map estabRowKey).Nodup
      ∧ (∀ r ∈ removerDuplicatasEstab rows, r ∈ rows)
      ∧ (∀ r ∈ rows, ∃ r' ∈ removerDuplicatasEstab rows,
          estabRowKey r' = estabRowKey r)
      ∧ (∀ (l₁ : List EstabRow) (r : EstabRow) (l₂ : List EstabRow),
          rows = l₁ ++ r :: l₂ → (∀ x ∈ l₁, estabRowKey x ≠ estabRowKey r) →
          r ∈ removerDuplicatasEstab rows))
    ∧ (∀ rows : List EmpresaRow,
        ((removerDuplicatasEmpresa rows).map empresaRowKey).Nodup
        ∧ (∀ r ∈ removerDuplicatasEmpresa rows, r ∈ rows)
        ∧ (∀ r ∈ rows, ∃ r' ∈ removerDuplicatasEmpresa rows,
            empresaRowKey r' = empresaRowKey r)
        ∧ (∀ (l₁ : List EmpresaRow) (r : EmpresaRow) (l₂ : List EmpresaRow),
            rows = l₁ ++ r :: l₂ → (∀ x ∈ l₁, empresaRowKey x ≠ empresaRowKey r) →
            r ∈ removerDuplicatasEmpresa rows))
    ∧ (∀ rows : List SocioRow,
        ((removerDuplicatasSocio rows).map socioRowKey).Nodup
        ∧ (∀ r ∈ removerDuplicatasSocio rows, r ∈ rows)
        ∧ (∀ r ∈ rows, ∃ r' ∈ removerDuplicatasSocio rows,
            socioRowKey r' = socioRowKey r)
        ∧ (∀ (l₁ : List SocioRow) (r : SocioRow) (l₂ : List SocioRow),
            rows = l₁ ++ r :: l₂ → (∀ x ∈ l₁, socioRowKey x ≠ socioRowKey r) →
            r ∈ removerDuplicatasSocio rows)) := by
  refine ⟨fun rows => ⟨?_, ?_, ?_, ?_⟩, fun rows => ⟨?_, ?_, ?_, ?_⟩,
    fun rows => ⟨?_, ?_, ?_, ?_⟩⟩
  · exact dedupBy_nodup_keys estabRowKey rows
  · exact dedupBy_subset estabRowKey rows
  · exact dedupBy_covers estabRowKey rows
  · exact fun l₁ r l₂ h hne => dedupBy_keeps_first estabRowKey rows l₁ r l₂ h hne
  · exact dedupBy_nodup_keys empresaRowKey rows
  · exact dedupBy_subset empresaRowKey rows
  · exact dedupBy_covers empresaRowKey rows
  · exact fun l₁ r l₂ h hne => dedupBy_keeps_first empresaRowKey rows l₁ r l₂ h hne
  · exact dedupBy_nodup_keys socioRowKey rows
  · exact dedupBy_subset socioRowKey rows
  · exact dedupBy_covers socioRowKey rows
  · exact fun l₁ r l₂ h hne => dedupBy_keeps_first socioRowKey rows l₁ r l₂ h hne

/-- C4 witness: in the two-row batch with a duplicated key, the first
occurrence is the one kept. -/
theorem spec_c4_amended_witness :
    estRowA2 ∈ removerDuplicatasEstab [estRowA2, estRowB2] :=
  (spec_c4_amended.1 [estRowA2, estRowB2]).2.2.2 [] estRowA2 [estRowB2] rfl
    (by intro x hx; simp at hx)

/-- C7 counterexample: with reference files from folders 2023-05 (rows A)
and 2024-01 (rows B), the loader replaces the table with the 2023-05
contents — the FIRST-discovered (earliest) file, not the latest. -/
theorem spec_c7_counterexample :
    importarTabelaReferencia
        (escanearRefTipo [⟨"2024-01", [[("1", "B")]]⟩, ⟨"2023-05", [[("1", "A")]]⟩])
        [("9", "STALE")] = [("1", "A")]
    ∧ ([("1", "A")] : List (String × String)) ≠ [("1", "B")] := by
  constructor
  · simp [importarTabelaReferencia, escanearRefTipo, List.insertionSort,
      List.orderedInsert, lexLe, dedupBy]
  · decide

/-- C7 amended: loading a reference table wholesale-replaces its entire
contents with the deduplicated rows of the FIRST file of the scan order,
which comes from the folder whose name is least (the earliest period);
whatever was in the table before is dropped. -/
theorem spec_c7_amended :
    ∀ (pastas : List Pasta) (tbl : List (String × String)) (p : Pasta)
      (rest : List Pasta) (rows : List (String × String))
      (more : List (List (String × String))),
      List.insertionSort (fun a b => lexLe a.name.toList b.name.toList = true) pastas =
        p :: rest →
      p.refFiles = rows :: more →
      importarTabelaReferencia (escanearRefTipo pastas) tbl = dedupBy (fun r => r) rows
      ∧ ∀ q ∈ pastas, lexLe p.name.toList q.name.toList = true := by
  intro pastas tbl p rest rows more hsort hfiles
  constructor
  · unfold escanearRefTipo
    rw [hsort]
    simp [hfiles, importarTabelaReferencia]
  · intro q hq
    haveI : IsTotal Pasta (fun a b => lexLe a.name.toList b.name.toList = true) :=
      ⟨fun a b => lexLe_total _ _⟩
    haveI : IsTrans Pasta (fun a b => lexLe a.name.toList b.name.toList = true) :=
      ⟨fun a b c => lexLe_trans _ _ _⟩
    have hsorted := List.sorted_insertionSort
      (fun a b => lexLe a.name.toList b.name.toList = true) pastas
    rw [hsort] at hsorted
    have hqmem : q ∈ p :: rest := by
      rw [← hsort]
      exact ((List.perm_insertionSort
        (fun a b => lexLe a.name.toList b.name.toList = true) pastas).mem_iff).mpr hq
    rcases List.mem_cons.mp hqmem with h | h
    · rw [h]
      exact lexLe_refl _
    · exact ((List.pairwise_cons.mp hsorted).1 q h)

/-- C7 witness: for the concrete two-folder layout the loader's result is
the deduplicated earliest file and the earliest folder name is ≤ the other. -/
theorem spec_c7_amended_witness :
    importarTabelaReferencia
        (escanearRefTipo [⟨"2024-01", [[("1", "B")]]⟩, ⟨"2023-05", [[("1", "A")]]⟩])
        [("9", "STALE")] = dedupBy (fun r => r) [("1", "A")]
    ∧ lexLe (Pasta.mk "2023-05" [[("1", "A")]]).name.toList
        (Pasta.mk "2024-01" [[("1", "B")]]).name.toList = true :=
  ⟨(spec_c7_amended [⟨"2024-01", [[("1", "B")]]⟩, ⟨"2023-05", [[("1", "A")]]⟩]
      [("9", "STALE")] ⟨"2023-05", [[("1", "A")]]⟩ [⟨"2024-01", [[("1", "B")]]⟩]
      [("1", "A")] [] (by decide) rfl).1,
   (spec_c7_amended [⟨"2024-01", [[("1", "B")]]⟩, ⟨"2023-05", [[("1", "A")]]⟩]
      [("9", "STALE")] ⟨"2023-05", [[("1", "A")]]⟩ [⟨"2024-01", [[("1", "B")]]⟩]
      [("1", "A")] [] (by decide) rfl).2 ⟨"2024-01", [[("1", "B")]]⟩ (by decide)⟩

/-- C8 counterexample: a Company row whose capital does not parse ("abc")
is NOT skipped: the conversion coerces the capital to 0 and the row is
inserted into the store. -/
theorem spec_c8_counterexample :
    parseDec (commaToDot "abc") = none
    ∧ (upsertRowEmpresa [] (processEmpresaRow empRawBad "2023-05")).1 =
        [empresaInsert (processEmpresaRow empRawBad "2023-05")]
    ∧ (empresaInsert (processEmpresaRow empRawBad "2023-05")).capital_social = 0 := by
  refine ⟨by decide, ?_, by decide⟩
  decide

/-- C8 amended: a row with an unparseable numeric capital is not skipped —
`pd.to_numeric(errors='coerce').fillna(0)` coerces the capital to 0 and the
row is processed normally (inserted when its legal name is valid); row-level
errors never abort the surrounding batch, but nothing records or counts the
coercion. -/
theorem spec_c8_amended :
    ∀ (raw : EmpresaRaw) (pasta : String) (s : String),
      raw.capital_social = some s → parseDec (commaToDot s) = none →
      (processEmpresaRow raw pasta).capital_social = 0
      ∧ (razaoSocialOk raw.razao_social = true →
          upsertRowEmpresa [] (processEmpresaRow raw pasta) =
            ([empresaInsert (processEmpresaRow raw pasta)], 1, 0)) := by
  intro raw pasta s hcap hparse
  constructor
  · simp [processEmpresaRow, capitalToNumeric, hcap, hparse]
  · intro hok
    have hok' : razaoSocialOk (processEmpresaRow raw pasta).razao_social = true := by
      simpa [processEmpresaRow] using hok
    simp [upsertRowEmpresa, hok']

/-- C8 witness: the concrete unparseable capital "abc" is coerced to 0 and
the row is stored. -/
theorem spec_c8_amended_witness :
    (processEmpresaRow empRawBad "2023-05").capital_social = 0
    ∧ upsertRowEmpresa [] (processEmpresaRow empRawBad "2023-05") =
        ([empresaInsert (processEmpresaRow empRawBad "2023-05")], 1, 0) :=
  ⟨(spec_c8_amended empRawBad "2023-05" "abc" rfl (by decide)).1,
   (spec_c8_amended empRawBad "2023-05" "abc" rfl (by decide)).2 (by decide)⟩

/-- C9 counterexample: a directory whose name does not match the YYYY-MM
shape is silently dropped by folder discovery — no error is raised, the
remaining folders are processed — whereas the claim requires failing closed
on a bad period token. -/
theorem spec_c9_counterexample :
    validPasta "2023-5" = false
    ∧ encontrarTodasPastas [⟨"2023-5", true⟩, ⟨"2024-01", true⟩] = ["2024-01"] := by
  constructor
  · decide
  · decide

/-- C9 amended: every folder name the discovery returns has a valid YYYY-MM
token (invalid tokens are silently excluded, not an error), the discovered
folders come back sorted ascending, and the per-entity file sequencing is an
ascending stable reordering of the discovered files by their
(year, month) string key. -/
theorem spec_c9_amended :
    ∀ (entries : List DirEntry) (files : List Arquivo),
      (∀ n ∈ encontrarTodasPastas entries, validPasta n = true)
      ∧ List.Sorted (fun a b => lexLe a.toList b.toList = true)
          (encontrarTodasPastas entries)
      ∧ (encontrarTodasPastas entries).Perm
          ((entries.filter (fun e => e.isDir && validPasta e.name)).map (fun e => e.name))
      ∧ List.Sorted (fun a b => pairLe (arquivoKey a) (arquivoKey b) = true)
          (ordenarArquivos files)
      ∧ (ordenarArquivos files).Perm files := by
  intro entries files
  haveI : IsTotal String (fun a b => lexLe a.toList b.toList = true) :=
    ⟨fun a b => lexLe_total _ _⟩
  haveI : IsTrans String (fun a b => lexLe a.toList b.toList = true) :=
    ⟨fun a b c => lexLe_trans _ _ _⟩
  haveI : IsTotal Arquivo (fun a b => pairLe (arquivoKey a) (arquivoKey b) = true) :=
    ⟨fun a b => pairLe_total _ _⟩
  haveI : IsTrans Arquivo (fun a b => pairLe (arquivoKey a) (arquivoKey b) = true) :=
    ⟨fun a b c => pairLe_trans _ _ _⟩
  refine ⟨?_, ?_, ?_, ?_, ?_⟩
  · intro n hn
    have hn' : n ∈ (entries.filter (fun e => e.isDir && validPasta e.name)).map
        (fun e => e.name) := by
      exact ((List.perm_insertionSort _ _).mem_iff).mp hn
    rcases List.mem_map.mp hn' with ⟨e, he, hname⟩
    have := (List.mem_filter.mp he).2
    rcases Bool.and_eq_true_iff.mp this with ⟨_, hv⟩
    exact hname ▸ hv
  · exact List.sorted_insertionSort _ _
  · exact List.perm_insertionSort _ _
  · exact List.sorted_insertionSort _ _
  · exact List.perm_insertionSort _ _

/-- C9 witness: a valid folder name passes the shape test via discovery, and
concrete file sequencing reorders a two-file list ascending by period. -/
theorem spec_c9_amended_witness :
    validPasta "2023-05" = true
    ∧ (ordenarArquivos [⟨"2024-01", "f2"⟩, ⟨"2023-05", "f1"⟩]).Perm
        [⟨"2024-01", "f2"⟩, ⟨"2023-05", "f1"⟩] :=
  ⟨(spec_c9_amended [⟨"2023-05", true⟩] []).1 "2023-05" (by decide),
   (spec_c9_amended [] [⟨"2024-01", "f2"⟩, ⟨"2023-05", "f1"⟩]).2.2.2.2⟩

